import Mathlib

set_option maxRecDepth 16384

/-!
Verification of the NETCONF protocol engine of the `switch` repository
(`qn-netconf/main.go`): the frame codec, the subsystem negotiator, the
operation dispatcher, the error-reply builder and the session loop are
embedded as executable Lean definitions, and the behavioural properties
of the engine are proved or refuted against this embedding.

Byte strings are modelled as `List Char`; all protocol content handled by
the engine is ASCII, for which this is byte-faithful.
-/

/-- Whitespace predicate of Go's `bytes.TrimSpace` / `strings.TrimSpace`
restricted to ASCII data: space, TAB, LF, VT, FF, CR. -/
def goIsSpace (c : Char) : Bool :=
  c == ' ' || c == '\t' || c == '\n' || c == Char.ofNat 11 ||
    c == Char.ofNat 12 || c == '\r'

/-- Go `bytes.TrimSpace`: drop leading and trailing whitespace. -/
def trimSpace (l : List Char) : List Char :=
  ((l.dropWhile goIsSpace).reverse.dropWhile goIsSpace).reverse

/-- Go `bytes.Index`: index of the first occurrence of `pat` in the list,
`none` when `pat` does not occur. -/
def indexOfSub (pat : List Char) : List Char → Option Nat
  | [] => if pat.isEmpty then some 0 else none
  | c :: rest =>
    if pat.isPrefixOf (c :: rest) then some 0
    else (indexOfSub pat rest).map (· + 1)

/-- Go `bytes.Contains`. -/
def containsSub (pat l : List Char) : Bool :=
  (indexOfSub pat l).isSome

/-- Body of the `for` loop of `readFrame` (`main.go:585-608`).  `buffer` is
the accumulation buffer, `chunks` the sequence of byte slices the successive
`channel.Read` calls deliver (each at most 4096 bytes in the source; the
bound does not affect behaviour and is not modelled).  Each iteration
appends one chunk and searches the whole buffer for the terminator; on a
hit it returns the whitespace-trimmed message, the bytes left in the local
buffer after the terminator, and the chunks not yet read.  An exhausted
chunk list models a read that would block (or error) with no frame
delivered. -/
def readFrameLoop (term : List Char) (buffer : List Char) :
    List (List Char) → Option (List Char × List Char × List (List Char))
  | [] => none
  | c :: rest =>
    match indexOfSub term (buffer ++ c) with
    | some i =>
        some (trimSpace ((buffer ++ c).take i),
              (buffer ++ c).drop (i + term.length), rest)
    | none => readFrameLoop term (buffer ++ c) rest

/-- One call of `readFrame` (`main.go:580-609`).  The accumulation buffer is
a local variable (`var buffer bytes.Buffer`), so every call starts from an
empty buffer, and the bytes written back into the buffer after the
terminator die with the call: the caller observes only the payload and the
not-yet-read chunks. -/
def readFrame (term : List Char) (chunks : List (List Char)) :
    Option (List Char × List (List Char)) :=
  (readFrameLoop term [] chunks).map (fun r => (r.1, r.2.2))

example : trimSpace "  a b \n".toList = "a b".toList := by decide

example :
    readFrame "]]>]]>".toList ["<x/>".toList, "]]>]]>rest".toList] =
      some ("<x/>".toList, []) := by decide

/-- Bridge between the executable `List.isPrefixOf` and an explicit
decomposition of the longer list. -/
theorem isPrefixOf_iff_exists (p : List Char) :
    ∀ l : List Char, p.isPrefixOf l = true ↔ ∃ t, p ++ t = l := by
  induction p with
  | nil => intro l; simp [List.isPrefixOf]
  | cons a p ih =>
    intro l
    cases l with
    | nil => simp [List.isPrefixOf]
    | cons b l' =>
      constructor
      · intro h
        simp only [List.isPrefixOf, Bool.and_eq_true, beq_iff_eq] at h
        obtain ⟨t, ht⟩ := (ih l').mp h.2
        exact ⟨t, by simp [h.1, ht]⟩
      · rintro ⟨t, ht⟩
        rw [List.cons_append] at ht
        injection ht with hab htail
        simp only [List.isPrefixOf, Bool.and_eq_true, beq_iff_eq]
        exact ⟨hab, (ih l').mpr ⟨t, htail⟩⟩

/-- Characterisation of `indexOfSub` for a nonempty pattern: it returns the
index of the first occurrence. -/
theorem indexOfSub_eq_some_iff (pat : List Char) (hpat : pat ≠ []) :
    ∀ (l : List Char) (i : Nat),
      indexOfSub pat l = some i ↔
        (∃ t, pat ++ t = l.drop i) ∧ ∀ j < i, ¬ ∃ t, pat ++ t = l.drop j := by
  intro l
  induction l with
  | nil =>
    intro i
    have he : pat.isEmpty = false := by
      cases pat with
      | nil => exact absurd rfl hpat
      | cons a t => rfl
    simp [indexOfSub, he, List.append_eq_nil, hpat]
  | cons c rest ih =>
    intro i
    by_cases hp : pat.isPrefixOf (c :: rest) = true
    · have hocc : ∃ t, pat ++ t = c :: rest := (isPrefixOf_iff_exists pat _).mp hp
      simp only [indexOfSub, hp, if_true]
      constructor
      · intro h
        have hi : i = 0 := by
          have := Option.some.inj h
          omega
        subst hi
        exact ⟨hocc, by omega⟩
      · rintro ⟨hi, hmin⟩
        cases i with
        | zero => rfl
        | succ n => exact absurd hocc (by simpa using hmin 0 (Nat.succ_pos n))
    · have hred : indexOfSub pat (c :: rest) = (indexOfSub pat rest).map (· + 1) := by
        simp only [indexOfSub]
        rw [if_neg hp]
      rw [hred]
      cases i with
      | zero =>
        constructor
        · intro h
          cases h' : indexOfSub pat rest <;> rw [h'] at h <;> simp at h
        · rintro ⟨hocc0, _⟩
          exact absurd ((isPrefixOf_iff_exists pat _).mpr (by simpa using hocc0)) hp
      | succ n =>
        have hmap : (indexOfSub pat rest).map (· + 1) = some (n + 1) ↔
            indexOfSub pat rest = some n := by
          cases h' : indexOfSub pat rest <;> simp [h']
        rw [hmap, ih n]
        constructor
        · rintro ⟨hocc, hmin⟩
          refine ⟨by simpa using hocc, ?_⟩
          intro j hj
          cases j with
          | zero =>
            intro hc0
            exact absurd ((isPrefixOf_iff_exists pat _).mpr (by simpa using hc0)) hp
          | succ j' => exact hmin j' (by omega)
        · rintro ⟨hocc, hmin⟩
          exact ⟨by simpa using hocc, fun j hj => hmin (j + 1) (by omega)⟩

/-- An occurrence returned by `indexOfSub` lies entirely inside the list. -/
theorem indexOfSub_bound (pat : List Char) (hpat : pat ≠ []) (l : List Char) (i : Nat)
    (h : indexOfSub pat l = some i) : i + pat.length ≤ l.length := by
  obtain ⟨⟨t, ht⟩, -⟩ := (indexOfSub_eq_some_iff pat hpat l i).mp h
  have hlen := congrArg List.length ht
  simp only [List.length_append, List.length_drop] at hlen
  have hne : pat.length ≠ 0 := by
    cases pat with
    | nil => exact absurd rfl hpat
    | cons a t => simp
  omega

/-- A decomposition witnessing an occurrence inside the left part of an
append, provided the pattern fits in the left part. -/
theorem occursIn_left_of_length_le (pat w v s : List Char)
    (h : pat ++ s = w ++ v) (hle : pat.length ≤ w.length) : ∃ u, pat ++ u = w := by
  refine ⟨w.drop pat.length, ?_⟩
  have h1 : (w ++ v).take pat.length = pat := by
    rw [← h, List.take_append_of_le_length (by simp)]
    simp
  rw [List.take_append_of_le_length hle] at h1
  conv_rhs => rw [← List.take_append_drop pat.length w]
  rw [h1]

/-- The index of the first occurrence is stable under appending bytes on
the right. -/
theorem indexOfSub_append_right (pat : List Char) (hpat : pat ≠ []) (u v : List Char) (j : Nat)
    (h : indexOfSub pat u = some j) : indexOfSub pat (u ++ v) = some j := by
  obtain ⟨⟨t, ht⟩, hmin⟩ := (indexOfSub_eq_some_iff pat hpat u j).mp h
  have hb := indexOfSub_bound pat hpat u j h
  apply (indexOfSub_eq_some_iff pat hpat (u ++ v) j).mpr
  constructor
  · refine ⟨t ++ v, ?_⟩
    rw [List.drop_append_of_le_length (by omega), ← ht, List.append_assoc]
  · rintro k hk ⟨s, hs⟩
    rw [List.drop_append_of_le_length (by omega)] at hs
    apply hmin k hk
    exact occursIn_left_of_length_le pat (u.drop k) v s hs (by simp; omega)

/-- Correctness invariant of the read loop: when the first occurrence of
the terminator in the complete delivered byte sequence is at index `i`, the
loop returns the trimmed bytes before that occurrence.  `Bf` is the local
buffer's contents at the moment of return. -/
theorem readFrameLoop_eq (term : List Char) (hterm : term ≠ []) :
    ∀ (CS : List (List Char)) (B : List Char) (i : Nat),
      indexOfSub term B = none →
      indexOfSub term (B ++ CS.flatten) = some i →
      ∃ Bf rest,
        B ++ CS.flatten = Bf ++ rest.flatten ∧
        indexOfSub term Bf = some i ∧
        readFrameLoop term B CS =
          some (trimSpace (Bf.take i), Bf.drop (i + term.length), rest) := by
  intro CS
  induction CS with
  | nil =>
    intro B i hB hD
    rw [List.flatten_nil, List.append_nil, hB] at hD
    cases hD
  | cons c rest ih =>
    intro B i hB hD
    have hD' : indexOfSub term ((B ++ c) ++ rest.flatten) = some i := by
      rw [List.append_assoc, ← List.flatten_cons]
      exact hD
    cases hc : indexOfSub term (B ++ c) with
    | some j =>
      have hj' : indexOfSub term ((B ++ c) ++ rest.flatten) = some j :=
        indexOfSub_append_right term hterm _ _ j hc
      have hij : j = i := by
        rw [hj'] at hD'
        exact Option.some.inj hD'
      subst hij
      refine ⟨B ++ c, rest, by rw [List.flatten_cons, List.append_assoc], hc, ?_⟩
      simp [readFrameLoop, hc]
    | none =>
      obtain ⟨Bf, rest', h1, h2, h3⟩ := ih (B ++ c) i hc hD'
      refine ⟨Bf, rest', ?_, h2, ?_⟩
      · rw [List.flatten_cons, ← List.append_assoc, h1]
      · simp [readFrameLoop, hc, h3]

/-- When no further bytes arrive, the loop never returns a frame. -/
theorem readFrameLoop_none_of_join_nil (term : List Char) :
    ∀ (CS : List (List Char)) (B : List Char), indexOfSub term B = none →
      CS.flatten = [] → readFrameLoop term B CS = none := by
  intro CS
  induction CS with
  | nil => intro B _ _; rfl
  | cons c rest ih =>
    intro B hB hj
    rw [List.flatten_cons, List.append_eq_nil] at hj
    obtain ⟨rfl, hr⟩ := hj
    simp [readFrameLoop, List.append_nil, hB, ih B hB hr]

/-- C7 (amended).  Single-frame round trip: if the first occurrence of the
terminator in `P ++ term` is the appended one (in particular `P` itself
contains no terminator and no occurrence straddles the boundary), then
feeding `P ++ term` to the codec, split across arbitrary read chunks,
yields `trimSpace P` exactly once: the first call returns it, no delivered
byte remains, and a further call obtains no frame. -/
theorem readFrame_round_trip (term P : List Char) (chunks : List (List Char))
    (hterm : term ≠ [])
    (hfirst : indexOfSub term (P ++ term) = some P.length)
    (hchunks : chunks.flatten = P ++ term) :
    ∃ rest, readFrame term chunks = some (trimSpace P, rest) ∧
      rest.flatten = [] ∧ readFrame term rest = none := by
  have h0 : indexOfSub term ([] : List Char) = none := by
    cases term with
    | nil => exact absurd rfl hterm
    | cons a t => rfl
  obtain ⟨Bf, rest, h1, h2, h3⟩ :=
    readFrameLoop_eq term hterm chunks [] P.length h0
      (by rw [List.nil_append, hchunks]; exact hfirst)
  rw [List.nil_append, hchunks] at h1
  have hb := indexOfSub_bound term hterm Bf P.length h2
  have hlen := congrArg List.length h1
  simp only [List.length_append] at hlen
  have hrj : rest.flatten = [] := List.eq_nil_of_length_eq_zero (by omega)
  have hBf : Bf = P ++ term := by
    rw [hrj, List.append_nil] at h1
    exact h1.symm
  refine ⟨rest, ?_, hrj, ?_⟩
  · rw [readFrame, h3, hBf]
    simp [List.take_left]
  · rw [readFrame, readFrameLoop_none_of_join_nil term rest [] h0 hrj]
    rfl

/-- C7 witness: a concrete instantiation of the round-trip theorem, with
the payload split across two chunks. -/
theorem readFrame_round_trip_witness :
    ∃ rest, readFrame "]]>]]>".toList [" <rpc>".toList, "</rpc>]]>]]>".toList] =
        some (trimSpace " <rpc></rpc>".toList, rest) ∧
      rest.flatten = [] ∧ readFrame "]]>]]>".toList rest = none :=
  readFrame_round_trip "]]>]]>".toList " <rpc></rpc>".toList
    [" <rpc>".toList, "</rpc>]]>]]>".toList]
    (by decide) (by decide) (by decide)

/-- C7 counterexample to the claim as stated: the payload `"x]]>"` contains
no terminator, yet the codec does not return `trimSpace "x]]>"`, because an
occurrence of the terminator straddles the payload/terminator boundary and
is found first. -/
theorem readFrame_round_trip_counterexample :
    containsSub "]]>]]>".toList "x]]>".toList = false ∧
    readFrame "]]>]]>".toList ["x]]>".toList ++ "]]>]]>".toList] =
      some ("x".toList, []) ∧
    trimSpace "x]]>".toList = "x]]>".toList ∧
    "x".toList ≠ "x]]>".toList := by
  refine ⟨by decide, by decide, by decide, by decide⟩

/-- C1: the receive buffer of `readFrame` is a local variable, so the bytes
retained after the terminator are lost when the call returns.  Feeding
`A ]]>]]> B ]]>]]>` in a single underlying read: the loop itself computes
leftover `B]]>]]>`, but the caller-visible result discards it, and the next
call (which starts from a fresh empty buffer, with no unread chunks left)
obtains no frame, so the second payload `B` is never delivered. -/
theorem readFrame_discards_bytes_after_terminator :
    readFrameLoop "]]>]]>".toList [] ["A]]>]]>B]]>]]>".toList] =
      some ("A".toList, "B]]>]]>".toList, []) ∧
    readFrame "]]>]]>".toList ["A]]>]]>B]]>]]>".toList] =
      some ("A".toList, []) ∧
    readFrame "]]>]]>".toList [] = none := by
  refine ⟨by decide, by decide, by decide⟩

/-- Constant `handlers.VlanNamespace` (`handlers/vlan.go:18`). -/
def VlanNamespace : List Char := "urn:example:params:xml:ns:yang:vlan".toList

/-- Constant `handlers.InterfaceNamespace` (`handlers/interface.go:16`). -/
def InterfaceNamespace : List Char := "yang:interfaces".toList

/-- Constant `handlers.SshConfigNamespace` (`handlers/ssh.go:14`). -/
def SshConfigNamespace : List Char := "yang:ssh".toList

/-- Constant `handlers.TelnetConfigNamespace` (`handlers/telnet.go:14`). -/
def TelnetConfigNamespace : List Char :=
  "urn:example:params:xml:ns:yang:telnet-server-config".toList

/-- Constant `handlers.IpInterfaceNamespace` (`handlers/ip_interface.go:15`). -/
def IpInterfaceNamespace : List Char :=
  "urn:example:params:xml:ns:yang:ip-interface".toList

/-- Constant `handlers.PortConfigNamespace`. -/
def PortConfigNamespace : List Char :=
  "urn:example:params:xml:ns:yang:port-config".toList

/-- Constant `handlers.StpGlobalConfigNamespace` (`handlers/telnet.go:203`). -/
def StpGlobalConfigNamespace : List Char := "yang:stp-global-config".toList

/-- Constant `handlers.RoutingNamespace` (`handlers/route.go:14`). -/
def RoutingNamespace : List Char := "urn:example:params:xml:ns:yang:routing".toList

/-- Constant `handlers.PortStatusNamespace`. -/
def PortStatusNamespace : List Char := "yang:get_port_status".toList

/-- Constant `handlers.PortDescriptionNamespace` (`handlers/port_description.go:14`). -/
def PortDescriptionNamespace : List Char := "yang:get_port_description".toList

/-- Constant `handlers.PortSpeedNamespace` (`handlers/port_speed.go:14`). -/
def PortSpeedNamespace : List Char := "yang:get_port_speed".toList

/-- The per-data-model handlers of the `handlers` package are external
collaborators; dispatch outcomes name which one the dispatcher invokes. -/
inductive HandlerKey where
  | handleEditConfig
  | handleSSHEditConfig
  | handleTelnetEditConfig
  | handleRouteEditConfig
  | handleIpInterfaceEditConfig
  | handlePortConfigurationEditConfig
  | handleStpEditConfig
  | buildGetVlansResponse
  | buildGetInterfacesResponse
  | handleSSHGetConfig
  | handleTelnetGetConfig
  | handleIpInterfaceGetConfig
  | handleLagGetConfig
  | handlePortConfigurationGetConfig
  | handleStpGetConfig
  | handleGetPortStatus
  | handleGetPortDescription
  | handleGetPortSpeed
  deriving DecidableEq

/-- Outcome of `generateResponse`: either a registered handler is invoked
(with the message id it is passed; the backend socket path, frame
terminator and, where applicable, the raw request are also passed but are
not part of the routing decision), or an `rpc-error` reply, described by
its tag, message and message id, is built by `buildErrorResponse`. -/
inductive DispatchResult where
  | handled (handler : HandlerKey) (msgID : List Char)
  | errorReply (errTag errMsg msgID : List Char)
  deriving DecidableEq

/-- Message id carried by a dispatch outcome. -/
def DispatchResult.msgID : DispatchResult → List Char
  | .handled _ m => m
  | .errorReply _ _ m => m

/-- Go `extractMessageID` (`main.go:548-556`): locate `message-id="`,
return the bytes up to the next `"`; default `"1"`. -/
def extractMessageID (request : List Char) : List Char :=
  match indexOfSub "message-id=\"".toList request with
  | some i =>
      let rest := request.drop (i + 12)
      match rest.findIdx? (fun c => c == '"') with
      | some j => rest.take j
      | none => "1".toList
  | none => "1".toList

/-- Go `strings.ReplaceAll` for a single-character pattern. -/
def replaceChar (c : Char) (rep : List Char) : List Char → List Char
  | [] => []
  | a :: t => if a == c then rep ++ replaceChar c rep t else a :: replaceChar c rep t

/-- The escaping performed by `buildErrorResponse` (`main.go:562-564`):
`<` then `>` then `&` are replaced, in that order. -/
def escapeErrMsg (errMsg : List Char) : List Char :=
  replaceChar '&' "&amp;".toList
    (replaceChar '>' "&gt;".toList
      (replaceChar '<' "&lt;".toList errMsg))

/-- Go `buildErrorResponse` (`main.go:560-578`): the `rpc-error` reply
document, assembled exactly as the source's format string does. -/
def buildErrorResponse (frameEnd msgID errTag errMsg : List Char) : List Char :=
  "<?xml version=\"1.0\" encoding=\"UTF-8\"?>\n<rpc-reply message-id=\"".toList ++
  msgID ++
  "\" xmlns=\"urn:ietf:params:xml:ns:netconf:base:1.0\">\n  <rpc-error>\n    <error-type>application</error-type>\n    <error-tag>".toList ++
  errTag ++
  "</error-tag>\n    <error-severity>error</error-severity>\n    <error-message xml:lang=\"en\">".toList ++
  escapeErrMsg errMsg ++
  "</error-message>\n  </rpc-error>\n</rpc-reply>\n".toList ++
  frameEnd

/-- The `edit-config` handler closure registered in `init()`
(`main.go:39-100`): an ordered chain of `bytes.Contains` marker checks on
the raw request; when none matches, an `operation-failed` error reply. -/
def editConfigHandler (request msgID : List Char) : DispatchResult :=
  if containsSub "<vlans xmlns=\"yang:set_vlan\">".toList request then
    .handled .handleEditConfig msgID
  else if containsSub ("<vlans xmlns=\"".toList ++ VlanNamespace ++ "\">".toList) request then
    .handled .handleEditConfig msgID
  else if containsSub "<ssh xmlns=\"yang:set_ssh\">".toList request then
    .handled .handleSSHEditConfig msgID
  else if containsSub ("<ssh xmlns=\"".toList ++ SshConfigNamespace ++ "\">".toList) request then
    .handled .handleSSHEditConfig msgID
  else if containsSub "<telnet xmlns=\"yang:set_telnet\">".toList request then
    .handled .handleTelnetEditConfig msgID
  else if containsSub ("<telnet xmlns=\"".toList ++ TelnetConfigNamespace ++ "\">".toList) request then
    .handled .handleTelnetEditConfig msgID
  else if containsSub ("<routing xmlns=\"".toList ++ RoutingNamespace ++ "\">".toList) request then
    .handled .handleRouteEditConfig msgID
  else if containsSub "<routing xmlns=\"yang:set_route\">".toList request then
    .handled .handleRouteEditConfig msgID
  else if containsSub "<ip-interfaces xmlns=\"yang:set_ip_interface\">".toList request then
    .handled .handleIpInterfaceEditConfig msgID
  else if containsSub ("<ip-interfaces xmlns=\"".toList ++ IpInterfaceNamespace ++ "\">".toList) request then
    .handled .handleIpInterfaceEditConfig msgID
  else if containsSub ("<port-configurations xmlns=\"".toList ++ PortConfigNamespace ++ "\">".toList) request then
    .handled .handlePortConfigurationEditConfig msgID
  else if containsSub "<port-configurations xmlns=\"yang:set_port_config\">".toList request then
    .handled .handlePortConfigurationEditConfig msgID
  else if containsSub "<port-channels xmlns=\"yang:set_port_channel\">".toList request then
    .handled .handlePortConfigurationEditConfig msgID
  else if containsSub "<stp-global-config xmlns=\"yang:set_stp\">".toList request then
    .handled .handleStpEditConfig msgID
  else if containsSub ("<stp-global-config xmlns=\"".toList ++ StpGlobalConfigNamespace ++ "\">".toList) request then
    .handled .handleStpEditConfig msgID
  else
    .errorReply "operation-failed".toList
      "Unsupported configuration target in edit-config".toList msgID

/-- Filter resolution of the `<get>` branch of `generateResponse`
(`main.go:364-446`): ordered marker checks against the full request. -/
def dispatchGet (request msgID : List Char) : DispatchResult :=
  if containsSub "<vlans".toList request &&
      (containsSub "xmlns=\"yang:vlan\"".toList request ||
       containsSub "xmlns='yang:vlan'".toList request) then
    .handled .buildGetVlansResponse msgID
  else if containsSub ("<vlans xmlns=\"".toList ++ VlanNamespace ++ "\"".toList) request then
    .handled .buildGetVlansResponse msgID
  else if containsSub "<interfaces".toList request &&
      (containsSub "xmlns=\"yang:get_interface\"".toList request ||
       containsSub "xmlns='yang:get_interface'".toList request) then
    .handled .buildGetInterfacesResponse msgID
  else if containsSub ("<interfaces xmlns=\"".toList ++ InterfaceNamespace ++ "\"".toList) request then
    .handled .buildGetInterfacesResponse msgID
  else if containsSub "<ssh".toList request &&
      (containsSub "xmlns=\"yang:get_ssh\"".toList request ||
       containsSub "xmlns='yang:get_ssh'".toList request) then
    .handled .handleSSHGetConfig msgID
  else if containsSub ("<ssh xmlns=\"".toList ++ SshConfigNamespace ++ "\"".toList) request then
    .handled .handleSSHGetConfig msgID
  else if containsSub "<telnet".toList request &&
      (containsSub "xmlns=\"yang:get_telnet\"".toList request ||
       containsSub "xmlns='yang:get_telnet'".toList request) then
    .handled .handleTelnetGetConfig msgID
  else if containsSub ("<telnet xmlns=\"".toList ++ TelnetConfigNamespace ++ "\"".toList) request then
    .handled .handleTelnetGetConfig msgID
  else if containsSub "<ip-interfaces".toList request &&
      (containsSub "xmlns=\"yang:get_ip_interface\"".toList request ||
       containsSub "xmlns='yang:get_ip_interface'".toList request) then
    .handled .handleIpInterfaceGetConfig msgID
  else if containsSub ("<ip-interfaces xmlns=\"".toList ++ IpInterfaceNamespace ++ "\"".toList) request then
    .handled .handleIpInterfaceGetConfig msgID
  else if containsSub "<port-channels".toList request &&
      (containsSub "xmlns=\"yang:get_port_channel\"".toList request ||
       containsSub "xmlns='yang:get_port_channel'".toList request) then
    .handled .handleLagGetConfig msgID
  else if containsSub "<port-configurations".toList request &&
      (containsSub "xmlns=\"yang:get_port_config\"".toList request ||
       containsSub "xmlns='yang:get_port_config'".toList request) then
    .handled .handlePortConfigurationGetConfig msgID
  else if containsSub ("<port-configurations xmlns=\"".toList ++ PortConfigNamespace ++ "\"".toList) request then
    .handled .handlePortConfigurationGetConfig msgID
  else if containsSub "<stp-global-config".toList request &&
      (containsSub "xmlns=\"yang:get_stp\"".toList request ||
       containsSub "xmlns='yang:get_stp'".toList request) then
    .handled .handleStpGetConfig msgID
  else if containsSub ("<stp-global-config xmlns=\"".toList ++ StpGlobalConfigNamespace ++ "\"".toList) request then
    .handled .handleStpGetConfig msgID
  else if containsSub "<port-status".toList request &&
      (containsSub ("xmlns=\"".toList ++ PortStatusNamespace ++ "\"".toList) request ||
       containsSub ("xmlns='".toList ++ PortStatusNamespace ++ "'".toList) request) then
    .handled .handleGetPortStatus msgID
  else if containsSub "<port-description".toList request &&
      (containsSub ("xmlns=\"".toList ++ PortDescriptionNamespace ++ "\"".toList) request ||
       containsSub ("xmlns='".toList ++ PortDescriptionNamespace ++ "'".toList) request) then
    .handled .handleGetPortDescription msgID
  else if containsSub "<port-speed".toList request &&
      (containsSub ("xmlns=\"".toList ++ PortSpeedNamespace ++ "\"".toList) request ||
       containsSub ("xmlns='".toList ++ PortSpeedNamespace ++ "'".toList) request) then
    .handled .handleGetPortSpeed msgID
  else
    .errorReply "operation-not-supported".toList
      "The <get> operation with the specified filter is not supported.".toList msgID

/-- Filter resolution of the `<get-config>` branch of `generateResponse`
(`main.go:448-534`), including its unreachable duplicate checks. -/
def dispatchGetConfig (request msgID : List Char) : DispatchResult :=
  if containsSub "<vlans".toList request &&
      (containsSub "xmlns=\"yang:vlan\"".toList request ||
       containsSub "xmlns='yang:vlan'".toList request) then
    .handled .buildGetVlansResponse msgID
  else if containsSub ("<vlans xmlns=\"".toList ++ VlanNamespace ++ "\"".toList) request then
    .handled .buildGetVlansResponse msgID
  else if containsSub "<interfaces".toList request &&
      (containsSub "xmlns=\"yang:get_interface\"".toList request ||
       containsSub "xmlns='yang:get_interface'".toList request) then
    .handled .buildGetInterfacesResponse msgID
  else if containsSub ("<interfaces xmlns=\"".toList ++ InterfaceNamespace ++ "\"".toList) request then
    .handled .buildGetInterfacesResponse msgID
  else if containsSub "<ssh".toList request &&
      (containsSub "xmlns=\"yang:get_ssh\"".toList request ||
       containsSub "xmlns='yang:get_ssh'".toList request) then
    .handled .handleSSHGetConfig msgID
  else if containsSub ("<ssh xmlns=\"".toList ++ SshConfigNamespace ++ "\"".toList) request then
    .handled .handleSSHGetConfig msgID
  else if containsSub "<telnet".toList request &&
      (containsSub "xmlns=\"yang:get_telnet\"".toList request ||
       containsSub "xmlns='yang:get_telnet'".toList request) then
    .handled .handleTelnetGetConfig msgID
  else if containsSub ("<telnet xmlns=\"".toList ++ TelnetConfigNamespace ++ "\"".toList) request then
    .handled .handleTelnetGetConfig msgID
  else if containsSub "<port-channels".toList request &&
      (containsSub "xmlns=\"yang:get_port_channel\"".toList request ||
       containsSub "xmlns='yang:get_port_channel'".toList request) then
    .handled .handleLagGetConfig msgID
  else if containsSub "<port-configurations".toList request &&
      (containsSub "xmlns=\"yang:get_port_config\"".toList request ||
       containsSub "xmlns='yang:get_port_config'".toList request) then
    .handled .handlePortConfigurationGetConfig msgID
  else if containsSub ("<ip-interfaces xmlns=\"".toList ++ IpInterfaceNamespace ++ "\"".toList) request then
    .handled .handleIpInterfaceGetConfig msgID
  else if containsSub ("<port-configurations xmlns=\"".toList ++ PortConfigNamespace ++ "\"".toList) request then
    .handled .handlePortConfigurationGetConfig msgID
  else if containsSub ("<stp-global-config xmlns=\"".toList ++ StpGlobalConfigNamespace ++ "\"".toList) request then
    .handled .handleStpGetConfig msgID
  else if containsSub "<ip-interfaces".toList request &&
      (containsSub "xmlns=\"yang:get_ip_interface\"".toList request ||
       containsSub "xmlns='yang:get_ip_interface'".toList request) then
    .handled .handleIpInterfaceGetConfig msgID
  else if containsSub ("<port-configurations xmlns=\"".toList ++ PortConfigNamespace ++ "\"".toList) request then
    .handled .handlePortConfigurationGetConfig msgID
  else if containsSub "<stp-global-config".toList request &&
      (containsSub "xmlns=\"yang:get_stp\"".toList request ||
       containsSub "xmlns='yang:get_stp'".toList request) then
    .handled .handleStpGetConfig msgID
  else if containsSub ("<stp-global-config xmlns=\"".toList ++ StpGlobalConfigNamespace ++ "\"".toList) request then
    .handled .handleStpGetConfig msgID
  else if containsSub "<port-status".toList request &&
      (containsSub ("xmlns=\"".toList ++ PortStatusNamespace ++ "\"".toList) request ||
       containsSub ("xmlns='".toList ++ PortStatusNamespace ++ "'".toList) request) then
    .handled .handleGetPortStatus msgID
  else if containsSub "<port-description".toList request &&
      (containsSub ("xmlns=\"".toList ++ PortDescriptionNamespace ++ "\"".toList) request ||
       containsSub ("xmlns='".toList ++ PortDescriptionNamespace ++ "'".toList) request) then
    .handled .handleGetPortDescription msgID
  else if containsSub "<port-speed".toList request &&
      (containsSub ("xmlns=\"".toList ++ PortSpeedNamespace ++ "\"".toList) request ||
       containsSub ("xmlns='".toList ++ PortSpeedNamespace ++ "'".toList) request) then
    .handled .handleGetPortSpeed msgID
  else
    .errorReply "operation-not-supported".toList
      "The <get-config> operation with the specified filter is not supported.".toList msgID

/-- Go `generateResponse` (`main.go:347-547`): extract the message id,
locate the `<rpc` tag (malformed-message error when absent), classify the
operation on the suffix starting at `<rpc`, and route.  The registered
handler map always contains the `edit-config` closure, so its lookup is
embedded as a direct call. -/
def generateResponse (request : List Char) : DispatchResult :=
  let msgID := extractMessageID request
  match indexOfSub "<rpc".toList request with
  | none =>
      .errorReply "malformed-message".toList
        "Request frame does not contain an <rpc> tag.".toList msgID
  | some rpcStartIndex =>
      let rpcQuery := request.drop rpcStartIndex
      if "<rpc".toList.isPrefixOf rpcQuery && containsSub "<get>".toList rpcQuery &&
          containsSub "</get>".toList rpcQuery then
        dispatchGet request msgID
      else if "<rpc".toList.isPrefixOf rpcQuery &&
          containsSub "<get-config>".toList rpcQuery &&
          containsSub "</get-config>".toList rpcQuery then
        dispatchGetConfig request msgID
      else if "<rpc".toList.isPrefixOf rpcQuery &&
          containsSub "<edit-config".toList rpcQuery then
        editConfigHandler request msgID
      else
        .errorReply "operation-not-supported".toList
          "Operation not supported or request malformed.".toList msgID

/-- An SSH channel request as the negotiator sees it: its type string and
its payload bytes (for a subsystem request, a 4-byte length prefix followed
by the subsystem name). -/
structure SSHRequest where
  reqType : List Char
  payload : List Char
  deriving DecidableEq

/-- The match test of `main.go:243-244`: a `subsystem` request whose
payload (after the 4-byte length prefix, whitespace-trimmed) is
`netconf`. -/
def isNetconfSubsystemReq (r : SSHRequest) : Bool :=
  r.reqType == "subsystem".toList &&
    trimSpace (r.payload.drop 4) == "netconf".toList

/-- The request-servicing goroutine of `handleNETCONFSession`
(`main.go:240-253`): requests are read in order; a non-matching request is
acknowledged with `Reply(false)` and the wait continues; on the first
matching request, `Reply(true)` is sent and the goroutine returns, reading
nothing further; an exhausted stream yields failure.  Result: the replies
sent (request, acknowledgement) in order, the success flag sent on
`subsysChan`, and the requests never read from the stream. -/
def negotiate : List SSHRequest → List (SSHRequest × Bool) × Bool × List SSHRequest
  | [] => ([], false, [])
  | r :: rest =>
    if isNetconfSubsystemReq r then ([(r, true)], true, rest)
    else
      let (replies, success, unread) := negotiate rest
      ((r, false) :: replies, success, unread)

/-- Channel I/O events of one session, as observed on the SSH channel. -/
inductive SessionEvent where
  | readEv (frame : List Char)
  | writeEv (reply : DispatchResult)
  deriving DecidableEq

/-- The active request/reply loop of `handleNETCONFCommunication`
(`main.go:325-339`): read one frame, dispatch it, write the reply, repeat;
`frames` are the successive frames `readFrame` yields before a clean
end-of-stream. -/
def activeLoop : List (List Char) → List SessionEvent
  | [] => []
  | f :: rest => .readEv f :: .writeEv (generateResponse f) :: activeLoop rest

/-- The hello-phase step of `handleNETCONFCommunication`
(`main.go:310-323`): the first client frame is read; when it literally
starts with `<rpc` (`bytes.HasPrefix`, no prolog stripping) it is
dispatched and its reply written before the main loop; otherwise nothing
is written for it. -/
def helloPhaseReply (clientHello : List Char) : Option DispatchResult :=
  if "<rpc".toList.isPrefixOf clientHello then some (generateResponse clientHello)
  else none

/-- Channel events of one session after subsystem establishment: the hello
phase, then the active loop. -/
def sessionTrace (clientHello : List Char) (frames : List (List Char)) :
    List SessionEvent :=
  (match helloPhaseReply clientHello with
   | some r => [.readEv clientHello, .writeEv r]
   | none => [.readEv clientHello]) ++ activeLoop frames

/-- Condition of claim C5 exactly as worded: the first frame begins with an
`<rpc` tag after stripping any leading XML prolog.  (Kept separate from the
source-derived `helloPhaseReply` to compare the two.) -/
def beginsWithRpcAfterProlog (frame : List Char) : Bool :=
  let stripped :=
    if "<?xml".toList.isPrefixOf frame then
      match indexOfSub "?>".toList frame with
      | some i => (frame.drop (i + 2)).dropWhile goIsSpace
      | none => frame
    else frame
  "<rpc".toList.isPrefixOf stripped

/-- Initial value of the global `sessionCounter` (`main.go:22`), a
`uint32`. -/
def sessionCounterInit : Nat := 1000

/-- Go `generateSessionID` (`main.go:342-344`): one `atomic.AddUint32` on
the shared counter, returning the incremented value (the reply carries its
decimal rendering).  Arithmetic is modulo `2^32`, the width of the Go
counter. -/
def generateSessionID (counter : Nat) : Nat × Nat :=
  let v := (counter + 1) % 2 ^ 32
  (v, v)

/-- Identifiers produced by `n` successive session creations starting from
counter state `s`.  `atomic.AddUint32` is indivisible, so any concurrent
execution of `n` creations linearises into exactly this sequence of
steps. -/
def sessionIDs (s : Nat) : Nat → List Nat
  | 0 => []
  | n + 1 => (generateSessionID s).2 :: sessionIDs (generateSessionID s).1 n

/-- An empty pattern is contained in every list. -/
theorem containsSub_nil_pat (l : List Char) : containsSub [] l = true := by
  cases l <;> rfl

/-- Containment is preserved by appending bytes on the right. -/
theorem containsSub_append_left (pat u v : List Char)
    (h : containsSub pat u = true) : containsSub pat (u ++ v) = true := by
  by_cases hp : pat = []
  · subst hp; exact containsSub_nil_pat _
  · obtain ⟨j, hj⟩ := Option.isSome_iff_exists.mp h
    unfold containsSub
    rw [indexOfSub_append_right pat hp u v j hj]
    rfl

/-- A pattern that is a prefix is contained. -/
theorem containsSub_of_isPrefixOf (pat w : List Char)
    (h : pat.isPrefixOf w = true) : containsSub pat w = true := by
  cases w with
  | nil =>
    cases pat with
    | nil => rfl
    | cons a t => simp [List.isPrefixOf] at h
  | cons c ws =>
    unfold containsSub indexOfSub
    rw [if_pos h]
    rfl

/-- Containment is preserved by prepending a byte. -/
theorem containsSub_cons (pat : List Char) (c : Char) (l : List Char)
    (h : containsSub pat l = true) : containsSub pat (c :: l) = true := by
  unfold containsSub at h ⊢
  show (indexOfSub pat (c :: l)).isSome = true
  rw [indexOfSub]
  by_cases hp : pat.isPrefixOf (c :: l) = true
  · rw [if_pos hp]; rfl
  · rw [if_neg hp]
    cases h' : indexOfSub pat l with
    | none => rw [h'] at h; simp at h
    | some k => rfl

/-- Containment is preserved by prepending bytes on the left. -/
theorem containsSub_append_right_mem (pat u v : List Char)
    (h : containsSub pat v = true) : containsSub pat (u ++ v) = true := by
  induction u with
  | nil => simpa using h
  | cons c u' ih => exact containsSub_cons pat c (u' ++ v) ih

/-- C3 (amended): a request frame with no `<rpc` substring is answered,
without invoking any handler, by an `rpc-error` with tag
`malformed-message`, and the reply built for it carries error-type
`application` (the single error builder hardcodes that type). -/
theorem no_rpc_yields_malformed_message (request : List Char)
    (h : indexOfSub "<rpc".toList request = none) :
    generateResponse request =
      .errorReply "malformed-message".toList
        "Request frame does not contain an <rpc> tag.".toList
        (extractMessageID request) ∧
    ∀ frameEnd, containsSub "<error-type>application</error-type>".toList
      (buildErrorResponse frameEnd (extractMessageID request)
        "malformed-message".toList
        "Request frame does not contain an <rpc> tag.".toList) = true := by
  constructor
  · unfold generateResponse
    rw [h]
  · intro fe
    unfold buildErrorResponse
    apply containsSub_append_left
    apply containsSub_append_left
    apply containsSub_append_left
    apply containsSub_append_left
    apply containsSub_append_left
    apply containsSub_append_right_mem
    decide

/-- C3 witness: the theorem applied at the concrete frame `hello`. -/
theorem no_rpc_yields_malformed_message_witness :
    generateResponse "hello".toList =
      .errorReply "malformed-message".toList
        "Request frame does not contain an <rpc> tag.".toList
        (extractMessageID "hello".toList) :=
  (no_rpc_yields_malformed_message "hello".toList (by decide)).1

/-- C3 counterexample to the claimed error-type: at the frame `hello` the
dispatcher does produce the `malformed-message` error, but the reply built
for it contains no `protocol` error-type. -/
theorem no_rpc_error_type_counterexample :
    generateResponse "hello".toList =
      .errorReply "malformed-message".toList
        "Request frame does not contain an <rpc> tag.".toList "1".toList ∧
    containsSub "<error-type>protocol".toList
      (buildErrorResponse "]]>]]>".toList "1".toList "malformed-message".toList
        "Request frame does not contain an <rpc> tag.".toList) = false := by
  exact ⟨by decide, by decide⟩

/-- C4: the escaping-order bug of `buildErrorResponse`.  Because `&` is
replaced after `<` and `>`, the ampersands introduced by the first two
replacements are escaped again: a message `<` is embedded as `&amp;lt;`
rather than `&lt;` (similarly for `>`); only a plain `&` is escaped
correctly. -/
theorem escape_order_bug :
    escapeErrMsg "<".toList = "&amp;lt;".toList ∧
    escapeErrMsg ">".toList = "&amp;gt;".toList ∧
    escapeErrMsg "&".toList = "&amp;".toList ∧
    containsSub "&amp;lt;".toList
      (buildErrorResponse "]]>]]>".toList "1".toList "operation-failed".toList
        "<".toList) = true := by
  exact ⟨by decide, by decide, by decide, by decide⟩

/-- Both branches of a conditional carrying the same message id carry it. -/
theorem msgID_ite (c : Prop) [Decidable c] (x y : DispatchResult) (m : List Char)
    (hx : x.msgID = m) (hy : y.msgID = m) : (if c then x else y).msgID = m := by
  by_cases h : c
  · rw [if_pos h]; exact hx
  · rw [if_neg h]; exact hy

/-- Every `<get>` filter-resolution outcome carries the message id it was
given. -/
theorem dispatchGet_msgID (request m : List Char) :
    (dispatchGet request m).msgID = m := by
  unfold dispatchGet
  repeat' apply msgID_ite
  all_goals rfl

/-- Every `<get-config>` filter-resolution outcome carries the message id
it was given. -/
theorem dispatchGetConfig_msgID (request m : List Char) :
    (dispatchGetConfig request m).msgID = m := by
  unfold dispatchGetConfig
  repeat' apply msgID_ite
  all_goals rfl

/-- Every `edit-config` handler-chain outcome carries the message id it
was given. -/
theorem editConfigHandler_msgID (request m : List Char) :
    (editConfigHandler request m).msgID = m := by
  unfold editConfigHandler
  repeat' apply msgID_ite
  all_goals rfl

/-- C6 (amended): operation classification of a frame containing `<rpc`.
`get` and `get-config` are recognised by the presence of both the opening
and the closing tag in the suffix starting at `<rpc`; `edit-config` by the
presence of the opening `<edit-config` text alone (no closing tag is
required); and when none of these match, dispatch returns an
`operation-not-supported` error reply and invokes no handler. -/
theorem classify_operation (request : List Char) (idx : Nat)
    (hidx : indexOfSub "<rpc".toList request = some idx) :
    (containsSub "<get>".toList (request.drop idx) = true →
      containsSub "</get>".toList (request.drop idx) = true →
      generateResponse request = dispatchGet request (extractMessageID request)) ∧
    ((containsSub "<get>".toList (request.drop idx) &&
        containsSub "</get>".toList (request.drop idx)) = false →
      containsSub "<get-config>".toList (request.drop idx) = true →
      containsSub "</get-config>".toList (request.drop idx) = true →
      generateResponse request = dispatchGetConfig request (extractMessageID request)) ∧
    ((containsSub "<get>".toList (request.drop idx) &&
        containsSub "</get>".toList (request.drop idx)) = false →
      (containsSub "<get-config>".toList (request.drop idx) &&
        containsSub "</get-config>".toList (request.drop idx)) = false →
      containsSub "<edit-config".toList (request.drop idx) = true →
      generateResponse request = editConfigHandler request (extractMessageID request)) ∧
    ((containsSub "<get>".toList (request.drop idx) &&
        containsSub "</get>".toList (request.drop idx)) = false →
      (containsSub "<get-config>".toList (request.drop idx) &&
        containsSub "</get-config>".toList (request.drop idx)) = false →
      containsSub "<edit-config".toList (request.drop idx) = false →
      generateResponse request =
        .errorReply "operation-not-supported".toList
          "Operation not supported or request malformed.".toList
          (extractMessageID request)) := by
  have hpre : "<rpc".toList.isPrefixOf (request.drop idx) = true :=
    (isPrefixOf_iff_exists _ _).mpr
      ((indexOfSub_eq_some_iff "<rpc".toList (by decide) request idx).mp hidx).1
  refine ⟨?_, ?_, ?_, ?_⟩
  · intro h1 h2
    unfold generateResponse
    simp only [hidx]
    rw [if_pos (by rw [hpre, h1, h2]; rfl)]
  · intro hng h1 h2
    unfold generateResponse
    simp only [hidx]
    rw [if_neg (by rw [hpre, Bool.true_and, hng]; exact Bool.false_ne_true),
      if_pos (by rw [hpre, h1, h2]; rfl)]
  · intro hng hnc he
    unfold generateResponse
    simp only [hidx]
    rw [if_neg (by rw [hpre, Bool.true_and, hng]; exact Bool.false_ne_true),
      if_neg (by rw [hpre, Bool.true_and, hnc]; exact Bool.false_ne_true),
      if_pos (by rw [hpre, he]; rfl)]
  · intro hng hnc hne
    unfold generateResponse
    simp only [hidx]
    rw [if_neg (by rw [hpre, Bool.true_and, hng]; exact Bool.false_ne_true),
      if_neg (by rw [hpre, Bool.true_and, hnc]; exact Bool.false_ne_true),
      if_neg (by rw [hpre, hne, Bool.true_and]; exact Bool.false_ne_true)]

/-- C6 witness: a frame whose `<rpc>` element contains none of the three
operations is answered with `operation-not-supported`. -/
theorem classify_operation_witness :
    generateResponse "<rpc><commit/></rpc>".toList =
      .errorReply "operation-not-supported".toList
        "Operation not supported or request malformed.".toList
        (extractMessageID "<rpc><commit/></rpc>".toList) :=
  (classify_operation "<rpc><commit/></rpc>".toList 0 (by decide)).2.2.2
    (by decide) (by decide) (by decide)

/-- C6 counterexample to the claim as stated: the frame contains no
closing `</edit-config>` (and no `get`/`get-config` pair), so by the claim
no tag pair matches and dispatch should answer `operation-not-supported`
without invoking a handler; the code instead classifies on the opening
`<edit-config` alone and runs the registered edit-config handler chain,
whose outcome here is the handler's `operation-failed` error. -/
theorem classify_operation_counterexample :
    containsSub "</edit-config>".toList
      "<rpc message-id=\"5\"><edit-config/></rpc>".toList = false ∧
    containsSub "<get>".toList
      "<rpc message-id=\"5\"><edit-config/></rpc>".toList = false ∧
    containsSub "<get-config>".toList
      "<rpc message-id=\"5\"><edit-config/></rpc>".toList = false ∧
    generateResponse "<rpc message-id=\"5\"><edit-config/></rpc>".toList =
      .errorReply "operation-failed".toList
        "Unsupported configuration target in edit-config".toList "5".toList := by
  exact ⟨by decide, by decide, by decide, by decide⟩

/-- A pattern sandwiched, with its surroundings, inside an append is
contained. -/
theorem containsSub_sandwich (a pre mid post b : List Char) :
    containsSub ((pre ++ mid) ++ post) (((a ++ pre) ++ mid) ++ (post ++ b)) = true := by
  have h : ((a ++ pre) ++ mid) ++ (post ++ b) = a ++ (((pre ++ mid) ++ post) ++ b) := by
    simp [List.append_assoc]
  rw [h]
  apply containsSub_append_right_mem
  apply containsSub_of_isPrefixOf
  exact (isPrefixOf_iff_exists _ _).mpr ⟨b, rfl⟩

/-- C9: message-id handling.  Every dispatch outcome (handler invocation or
error reply) carries `extractMessageID request`; when the `message-id="`
attribute is absent the identifier is `"1"`; when present it is the
attribute text up to the closing quote; and the reply built with this
identifier embeds it in its `message-id="…"` attribute. -/
theorem dispatch_message_id (request : List Char) :
    (generateResponse request).msgID = extractMessageID request ∧
    (indexOfSub "message-id=\"".toList request = none →
      extractMessageID request = "1".toList) ∧
    (∀ i j, indexOfSub "message-id=\"".toList request = some i →
      (request.drop (i + 12)).findIdx? (fun c => c == '"') = some j →
      extractMessageID request = (request.drop (i + 12)).take j) ∧
    ∀ frameEnd errTag errMsg,
      containsSub ("message-id=\"".toList ++ extractMessageID request ++ "\"".toList)
        (buildErrorResponse frameEnd (extractMessageID request) errTag errMsg) =
        true := by
  refine ⟨?_, ?_, ?_, ?_⟩
  · unfold generateResponse
    cases h : indexOfSub "<rpc".toList request with
    | none => rfl
    | some idx =>
      exact msgID_ite _ _ _ _ (dispatchGet_msgID request _)
        (msgID_ite _ _ _ _ (dispatchGetConfig_msgID request _)
          (msgID_ite _ _ _ _ (editConfigHandler_msgID request _) rfl))
  · intro h
    unfold extractMessageID
    rw [h]
  · intro i j hi hj
    unfold extractMessageID
    rw [hi]
    simp only [hj]
  · intro fe tag msg
    unfold buildErrorResponse
    apply containsSub_append_left
    apply containsSub_append_left
    apply containsSub_append_left
    apply containsSub_append_left
    apply containsSub_append_left
    rw [show "<?xml version=\"1.0\" encoding=\"UTF-8\"?>\n<rpc-reply message-id=\"".toList =
        "<?xml version=\"1.0\" encoding=\"UTF-8\"?>\n<rpc-reply ".toList ++
          "message-id=\"".toList from by decide,
      show "\" xmlns=\"urn:ietf:params:xml:ns:netconf:base:1.0\">\n  <rpc-error>\n    <error-type>application</error-type>\n    <error-tag>".toList =
        "\"".toList ++
          " xmlns=\"urn:ietf:params:xml:ns:netconf:base:1.0\">\n  <rpc-error>\n    <error-type>application</error-type>\n    <error-tag>".toList from by decide]
    exact containsSub_sandwich _ _ _ _ _

/-- C9 witness: the theorem applied at a concrete request carrying
`message-id="42"`. -/
theorem dispatch_message_id_witness :
    extractMessageID "<rpc message-id=\"42\"/>".toList = "42".toList := by
  rw [(dispatch_message_id "<rpc message-id=\"42\"/>".toList).2.2.1 5 2
    (by decide) (by decide)]
  decide

/-- C2 (amended): subsystem negotiation.  Every request before the first
matching `subsystem`/`netconf` request is acknowledged as rejected and the
wait continues; the matching request is acknowledged as success; and the
goroutine then returns, so the requests after the matching one are never
read from the stream (they are not drained). -/
theorem negotiate_behaviour (pre post : List SSHRequest) (m : SSHRequest)
    (hpre : ∀ r ∈ pre, isNetconfSubsystemReq r = false)
    (hm : isNetconfSubsystemReq m = true) :
    negotiate (pre ++ m :: post) =
      (pre.map (fun r => (r, false)) ++ [(m, true)], true, post) := by
  induction pre with
  | nil => simp [negotiate, hm]
  | cons r pre ih =>
    have hr : isNetconfSubsystemReq r = false := hpre r (List.mem_cons_self r pre)
    have ih' := ih (fun x hx => hpre x (List.mem_cons_of_mem r hx))
    simp [negotiate, hr, ih']

/-- C2 witness: the negotiation theorem at a concrete request stream. -/
theorem negotiate_behaviour_witness :
    negotiate [⟨"shell".toList, []⟩,
        ⟨"subsystem".toList, List.replicate 4 (Char.ofNat 0) ++ "netconf".toList⟩,
        ⟨"pty-req".toList, []⟩] =
      ([(⟨"shell".toList, []⟩, false),
        (⟨"subsystem".toList, List.replicate 4 (Char.ofNat 0) ++ "netconf".toList⟩,
          true)],
        true, [⟨"pty-req".toList, []⟩]) :=
  negotiate_behaviour [⟨"shell".toList, []⟩] [⟨"pty-req".toList, []⟩]
    ⟨"subsystem".toList, List.replicate 4 (Char.ofNat 0) ++ "netconf".toList⟩
    (by
      intro r hr
      rw [List.mem_singleton] at hr
      subst hr
      decide)
    (by decide)

/-- C2 counterexample to the draining conjunct: after the matching request
is acknowledged, a subsequent request on the stream is neither read nor
replied to — it stays unconsumed, the stream is not drained in the
background. -/
theorem negotiate_counterexample :
    negotiate [⟨"subsystem".toList, List.replicate 4 (Char.ofNat 0) ++ "netconf".toList⟩,
        ⟨"shell".toList, "x".toList⟩] =
      ([(⟨"subsystem".toList, List.replicate 4 (Char.ofNat 0) ++ "netconf".toList⟩,
          true)],
        true, [⟨"shell".toList, "x".toList⟩]) ∧
    ([⟨("shell" : String).toList, "x".toList⟩] : List SSHRequest) ≠ [] := by
  exact ⟨by decide, by decide⟩

/-- C5 (amended): hello-phase leniency.  The first client frame is
dispatched, and its reply written before the active loop's events, exactly
when the frame literally begins with `<rpc` (`bytes.HasPrefix`); no XML
prolog stripping is performed, and a first frame that does not begin with
`<rpc` gets no reply. -/
theorem hello_phase_leniency (clientHello : List Char) (frames : List (List Char)) :
    ("<rpc".toList.isPrefixOf clientHello = true →
      sessionTrace clientHello frames =
        .readEv clientHello :: .writeEv (generateResponse clientHello) ::
          activeLoop frames) ∧
    ("<rpc".toList.isPrefixOf clientHello = false →
      sessionTrace clientHello frames = .readEv clientHello :: activeLoop frames) := by
  constructor
  · intro h
    unfold sessionTrace helloPhaseReply
    rw [if_pos h]
    rfl
  · intro h
    unfold sessionTrace helloPhaseReply
    rw [if_neg (by rw [h]; exact Bool.false_ne_true)]
    rfl

/-- C5 witness: the leniency theorem at a concrete first frame. -/
theorem hello_phase_leniency_witness :
    sessionTrace "<rpc/>".toList [] =
      [.readEv "<rpc/>".toList, .writeEv (generateResponse "<rpc/>".toList)] :=
  (hello_phase_leniency "<rpc/>".toList []).1 (by decide)

/-- C5 counterexample to the claim as stated: a first frame consisting of
an XML prolog followed by an `<rpc>` request begins with `<rpc` after
stripping the prolog — the claim's trigger — yet the code dispatches
nothing for it, because it tests a literal `<rpc` prefix only. -/
theorem hello_phase_counterexample :
    beginsWithRpcAfterProlog
      "<?xml version=\"1.0\"?><rpc message-id=\"2\"><get></get></rpc>".toList = true ∧
    helloPhaseReply
      "<?xml version=\"1.0\"?><rpc message-id=\"2\"><get></get></rpc>".toList = none := by
  exact ⟨by decide, by decide⟩

/-- C8: per-session reply discipline.  The active loop's event trace is
exactly read-then-write per frame: one reply per accepted request, replies
in request order, and no further read before the previous reply is
written. -/
theorem active_loop_reply_discipline (frames : List (List Char)) :
    activeLoop frames =
      (frames.map (fun f => [SessionEvent.readEv f,
        SessionEvent.writeEv (generateResponse f)])).flatten ∧
    (activeLoop frames).filterMap
      (fun e => match e with
        | .writeEv r => some r
        | .readEv _ => none) = frames.map generateResponse ∧
    (activeLoop frames).filterMap
      (fun e => match e with
        | .readEv f => some f
        | .writeEv _ => none) = frames := by
  induction frames with
  | nil => exact ⟨rfl, rfl, rfl⟩
  | cons f rest ih =>
    refine ⟨?_, ?_, ?_⟩
    · simp [activeLoop, ih.1]
    · simp [activeLoop, List.filterMap_cons, ih.2.1]
    · simp [activeLoop, List.filterMap_cons, ih.2.2]

/-- C10: session identifiers.  Each creation is a single atomic
`AddUint32`, so any concurrent execution of `n` creations linearises into
`n` successive increments; as long as the 32-bit counter does not wrap,
the identifiers are `1001, 1002, …`, strictly increasing with no
duplicates. -/
theorem session_ids_monotone (n : Nat) (h : sessionCounterInit + n < 2 ^ 32) :
    sessionIDs sessionCounterInit n = List.range' (sessionCounterInit + 1) n ∧
    (sessionIDs sessionCounterInit n).length = n ∧
    (sessionIDs sessionCounterInit n).Pairwise (· < ·) ∧
    (sessionIDs sessionCounterInit n).Nodup := by
  have key : ∀ (k s : Nat), s + k < 2 ^ 32 →
      sessionIDs s k = List.range' (s + 1) k := by
    intro k
    induction k with
    | zero => intro s _; rfl
    | succ p ih =>
      intro s hs
      have h1 : (s + 1) % 2 ^ 32 = s + 1 := Nat.mod_eq_of_lt (by omega)
      show (generateSessionID s).2 :: sessionIDs (generateSessionID s).1 p = _
      simp only [generateSessionID, h1]
      rw [ih (s + 1) (by omega), List.range'_succ]
  have hk := key n sessionCounterInit h
  refine ⟨hk, ?_, ?_, ?_⟩
  · rw [hk]; simp
  · rw [hk]; exact List.pairwise_lt_range' _ _
  · rw [hk]; exact List.nodup_range' _ _

/-- C10 witness: three session creations from the initial counter. -/
theorem session_ids_monotone_witness :
    sessionIDs sessionCounterInit 3 = [1001, 1002, 1003] ∧
    (sessionIDs sessionCounterInit 3).Nodup := by
  have h := session_ids_monotone 3 (by norm_num [sessionCounterInit])
  exact ⟨h.1.trans (by decide), h.2.2.2⟩
